import Mathlib

/-!
Shallow embedding of `program_macropad.py` (macro-pad HID protocol
encoder/decoder) and proofs about its claims.

Python string primitives (`str.lower`, `str.strip`, `str.split`,
`"+" in s`, `str.isdigit`, `int(s)`) are embedded as executable
functions over `String.data` so that everything evaluates in the
kernel.  `x & 0xFF` on a nonnegative int is embedded as `x % 256`,
`x & 0x0F` as `x % 16`.
-/

namespace Macropad

/-- Embedding of Python `str.lower()` (ASCII case folding). -/
def strLower (s : String) : String := String.mk (s.data.map Char.toLower)

/-- Embedding of Python `str.strip()`: drop whitespace from both ends. -/
def strTrim (s : String) : String :=
  String.mk (((s.data.dropWhile Char.isWhitespace).reverse.dropWhile Char.isWhitespace).reverse)

/-- Split a character list at every occurrence of `c` (Python `str.split(sep)` core). -/
def split_char (c : Char) : List Char → List (List Char)
  | [] => [[]]
  | x :: xs =>
    if x = c then [] :: split_char c xs
    else match split_char c xs with
      | [] => [[x]]
      | g :: gs => (x :: g) :: gs

/-- Embedding of Python `s.split("+")`-style single-character split. -/
def strSplit (c : Char) (s : String) : List String := (split_char c s.data).map String.mk

/-- Embedding of Python `sep in s` membership test for one character. -/
def strContainsChar (c : Char) (s : String) : Bool := s.data.contains c

/-- Embedding of Python `str.isdigit()`: nonempty and all decimal digits. -/
def strIsDigit (s : String) : Bool := !s.data.isEmpty && s.data.all Char.isDigit

/-- Embedding of Python `int(s)` on a digit string. -/
def strToNat (s : String) : Nat := s.data.foldl (fun a c => a * 10 + (c.toNat - 48)) 0

-- --- Device constants (source lines 30-41) ---

def REPORT_SIZE : Nat := 65
def BUTTONS_PER_LAYER : Nat := 24
def NUM_LAYERS : Nat := 3

-- --- Symbol tables (source lines 44-106) ---

/-- HID modifier bits table `MODIFIER` from the source. -/
def MODIFIER : List (String × Nat) :=
  [("none", 0x00),
   ("ctrl", 0x01), ("control", 0x01), ("lctrl", 0x01),
   ("shift", 0x02), ("lshift", 0x02),
   ("alt", 0x04), ("option", 0x04), ("lalt", 0x04),
   ("meta", 0x08), ("win", 0x08), ("cmd", 0x08), ("gui", 0x08)]

/-- HID key code table `KEY` from the source. -/
def KEY : List (String × Nat) :=
  [("none", 0x00),
   ("a", 0x04), ("b", 0x05), ("c", 0x06), ("d", 0x07), ("e", 0x08), ("f", 0x09),
   ("g", 0x0A), ("h", 0x0B), ("i", 0x0C), ("j", 0x0D), ("k", 0x0E), ("l", 0x0F),
   ("m", 0x10), ("n", 0x11), ("o", 0x12), ("p", 0x13), ("q", 0x14), ("r", 0x15),
   ("s", 0x16), ("t", 0x17), ("u", 0x18), ("v", 0x19), ("w", 0x1A), ("x", 0x1B),
   ("y", 0x1C), ("z", 0x1D),
   ("1", 0x1E), ("2", 0x1F), ("3", 0x20), ("4", 0x21), ("5", 0x22),
   ("6", 0x23), ("7", 0x24), ("8", 0x25), ("9", 0x26), ("0", 0x27),
   ("enter", 0x28), ("return", 0x28), ("esc", 0x29), ("escape", 0x29),
   ("backspace", 0x2A), ("tab", 0x2B), ("space", 0x2C),
   ("minus", 0x2D), ("equal", 0x2E), ("lbracket", 0x2F), ("rbracket", 0x30),
   ("backslash", 0x31), ("semicolon", 0x33), ("quote", 0x34), ("grave", 0x35),
   ("comma", 0x36), ("period", 0x37), ("slash", 0x38), ("capslock", 0x39),
   ("f1", 0x3A), ("f2", 0x3B), ("f3", 0x3C), ("f4", 0x3D), ("f5", 0x3E),
   ("f6", 0x3F), ("f7", 0x40), ("f8", 0x41), ("f9", 0x42), ("f10", 0x43),
   ("f11", 0x44), ("f12", 0x45),
   ("printscreen", 0x46), ("scrolllock", 0x47), ("pause", 0x48),
   ("insert", 0x49), ("home", 0x4A), ("pageup", 0x4B),
   ("delete", 0x4C), ("end", 0x4D), ("pagedown", 0x4E),
   ("right", 0x4F), ("left", 0x50), ("down", 0x51), ("up", 0x52),
   ("f13", 0x68), ("f14", 0x69), ("f15", 0x6A), ("f16", 0x6B),
   ("f17", 0x6C), ("f18", 0x6D), ("f19", 0x6E), ("f20", 0x6F),
   ("f21", 0x70), ("f22", 0x71), ("f23", 0x72), ("f24", 0x73),
   ("mute", 0x7F), ("volume_up", 0x80), ("volume_down", 0x81)]

/-- Button name table `BUTTON_NAMES` from the source. -/
def BUTTON_NAMES : List (String × Nat) :=
  [("key1", 0x01), ("key2", 0x02), ("key3", 0x03), ("key4", 0x04),
   ("key5", 0x05), ("key6", 0x06), ("key7", 0x07), ("key8", 0x08),
   ("key9", 0x09), ("key10", 0x0A), ("key11", 0x0B), ("key12", 0x0C),
   ("knob1_left", 0x15), ("knob1_press", 0x14), ("knob1_right", 0x13),
   ("knob2_left", 0x10), ("knob2_press", 0x11), ("knob2_right", 0x12)]

/-- LED color table `LED_COLORS` from the source. -/
def LED_COLORS : List (String × Nat) :=
  [("off", 0), ("red", 1), ("orange", 2), ("yellow", 3), ("green", 4),
   ("cyan", 5), ("blue", 6), ("purple", 7)]

/-- LED effect table `LED_EFFECTS` from the source. -/
def LED_EFFECTS : List (String × Nat) :=
  [("off", 0), ("static", 1), ("ripple", 2), ("wave", 3), ("reactive", 4), ("white", 5)]

-- --- JSON-like values appearing in the config file ---

/-- A JSON value as seen by the Python code (config entries, key/mod specs). -/
inductive JVal where
  | str (s : String)
  | num (n : Nat)
  | list (xs : List JVal)
  | dict (entries : List (String × JVal))
  | null

-- --- Resolvers (source lines 131-157, 274-288) ---

/-- Source `_resolve_led_color`: color name, int, or numeric string to color index. -/
def _resolve_led_color : JVal → Except String Nat
  | .num n => .ok (n % 16)
  | .str s =>
    let s' := strTrim (strLower s)
    match List.lookup s' LED_COLORS with
    | some c => .ok c
    | none =>
      if strIsDigit s' then .ok (strToNat s' % 16)
      else .error ("Unknown LED color " ++ s')
  | _ => .error "led color: not a string or int"

/-- Source `_resolve_led_effect`: effect name, int, or numeric string to effect index. -/
def _resolve_led_effect : JVal → Except String Nat
  | .num n => .ok (n % 16)
  | .str s =>
    let s' := strTrim (strLower s)
    match List.lookup s' LED_EFFECTS with
    | some c => .ok c
    | none =>
      if strIsDigit s' then .ok (strToNat s' % 16)
      else .error ("Unknown LED effect " ++ s')
  | _ => .error "led effect: not a string or int"

/-- Source `make_led_byte`: `(color & 0xF) << 4 | (effect & 0xF)`. -/
def make_led_byte (effect color : Nat) : Nat := Nat.lor ((color % 16) <<< 4) (effect % 16)

/-- Source `_keycode`: resolve key name (str) or int to HID keycode; unknown name raises. -/
def _keycode : JVal → Except String Nat
  | .str s =>
    let k := strTrim (strLower s)
    match List.lookup k KEY with
    | some v => .ok v
    | none => .error ("Unknown key " ++ k)
  | .num n => .ok n
  | _ => .error "int() of non-numeric key"

/-- Source `_modifier`: resolve modifier name (str) or int to modifier byte.
An unknown name resolves to 0 (`MODIFIER.get(m, 0)`), never an error;
`int(m or 0)` on a falsy non-str value gives 0, on a truthy non-int raises. -/
def _modifier : JVal → Except String Nat
  | .str s => .ok ((List.lookup (strTrim (strLower s)) MODIFIER).getD 0)
  | .num n => .ok n
  | .null => .ok 0
  | .list [] => .ok 0
  | .dict [] => .ok 0
  | .list (_ :: _) => .error "int() of list"
  | .dict (_ :: _) => .error "int() of dict"

-- --- Binding parser (source lines 194-220) ---

/-- Comma-join of a list of names (Python `", ".join(...)`). -/
def join_comma : List String → String
  | [] => ""
  | [s] => s
  | s :: rest => s ++ ", " ++ join_comma rest

/-- Error message raised for an unknown modifier token in a compound string. -/
def unknown_modifier_msg (p : String) : String :=
  "Unknown modifier " ++ p ++ ". Known: " ++ join_comma (MODIFIER.map Prod.fst)

/-- The `mod_val |= MODIFIER[p]` accumulation loop over `parts[:-1]`;
the first unknown token raises. -/
def parse_mods (acc : Nat) : List String → Except String Nat
  | [] => .ok acc
  | p :: rest =>
    match List.lookup (strTrim p) MODIFIER with
    | none => .error (unknown_modifier_msg (strTrim p))
    | some m => parse_mods (Nat.lor acc m) rest

/-- Source `_parse_single_binding`: one keystroke spec, `"a"`, `"ctrl+c"`, or
`{"key": "c", "mod": "ctrl"}`; returns the (key, mod) pair unresolved. -/
def _parse_single_binding : JVal → Except String (JVal × JVal)
  | .str value =>
    if strContainsChar '+' value then
      let parts := strSplit '+' (strLower value)
      match parse_mods 0 parts.dropLast with
      | .error e => .error e
      | .ok mv => .ok (.str (strTrim (parts.getLast?.getD "")), .num mv)
    else .ok (.str value, .num 0)
  | .dict d => .ok ((List.lookup "key" d).getD (.str "none"), (List.lookup "mod" d).getD (.num 0))
  | _ => .error "Invalid binding"

/-- Source `parse_binding`: a button binding (single spec or list of specs) to a
list of (key, mod) pairs. -/
def parse_binding : JVal → Except String (List (JVal × JVal))
  | .list xs => xs.mapM _parse_single_binding
  | v => do
    let b ← _parse_single_binding v
    .ok [b]

-- --- Config loading (source lines 109-128, 223-261) ---

/-- A layer's JSON dict: button names (or "led" etc.) to values. -/
abbrev LayerDict := List (String × JVal)

/-- Source `parse_led_config`: LED settings of one layer dict, `(effect, color)`. -/
def parse_led_config (layer_dict : LayerDict) : Except String (Option (Nat × Nat)) :=
  match List.lookup "led" layer_dict with
  | none => .ok none
  | some .null => .ok none
  | some (.str s) => do
    let c ← _resolve_led_color (.str s)
    .ok (some (1, c))
  | some (.dict d) => do
    let c ← _resolve_led_color ((List.lookup "color" d).getD (.str "red"))
    let e ← _resolve_led_effect ((List.lookup "effect" d).getD (.str "static"))
    .ok (some (e, c))
  | some _ => .error "Invalid led config"

/-- The per-layer button loop of `load_config`: keep entries whose
lowercased name is a button name, parse each binding. -/
def process_layer_bindings : LayerDict → Except String (List (Nat × List (JVal × JVal)))
  | [] => .ok []
  | (name, v) :: rest =>
    match List.lookup (strTrim (strLower name)) BUTTON_NAMES with
    | none => process_layer_bindings rest
    | some btn_id => do
      let keys ← parse_binding v
      let tail ← process_layer_bindings rest
      .ok ((btn_id, keys) :: tail)

/-- Warning printed for an out-of-range layer. -/
def warn_msg (n : Int) : String :=
  "Warning: ignoring layer " ++ toString n ++ " (must be 1-3)"

/-- Source `load_config` over the `layers` dict (already `int()`-keyed):
returns (bindings, leds, warnings); a parse error propagates. -/
def load_config : List (Int × LayerDict) →
    Except String (List (Nat × List (Nat × List (JVal × JVal))) × List (Nat × Nat × Nat) × List String)
  | [] => .ok ([], [], [])
  | (layer_num, ld) :: rest =>
    if layer_num < 1 ∨ layer_num > 3 then do
      let (b, l, w) ← load_config rest
      .ok (b, l, warn_msg layer_num :: w)
    else do
      let led ← parse_led_config ld
      let lb ← process_layer_bindings ld
      let (b, l, w) ← load_config rest
      let layer : Nat := layer_num.toNat
      .ok ((layer, lb) :: b,
           (match led with
            | some (e, c) => (layer, e, c) :: l
            | none => l), w)

-- --- Packet encoder (source lines 291-436) ---

/-- Padding of `make_report`: first bytes plus zero-padding, truncated to 65 bytes. -/
def pad_report (payload : List Nat) : List Nat :=
  (payload ++ List.replicate (REPORT_SIZE - payload.length) 0).take REPORT_SIZE

/-- Source `make_report(*first_bytes)` from the source. -/
def make_report (first_bytes : List Nat) : List Nat := pad_report first_bytes

/-- The commit frame `make_report(0x03, 0xFD, 0xFE, 0xFF)`. -/
def commit_report : List Nat := make_report [0x03, 0xFD, 0xFE, 0xFF]

/-- The save-to-flash frame `make_report(0x03, 0xEF, 0x03)`. -/
def save_report : List Nat := make_report [0x03, 0xEF, 0x03]

/-- The resolution loop of `write_button`: each (key, mod) spec to a
`(modifier, keycode)` pair (`_modifier` first, as in the tuple expression). -/
def resolve_keys : List (JVal × JVal) → Except String (List (Nat × Nat))
  | [] => .ok []
  | (k, m) :: rest => do
    let mv ← _modifier m
    let kv ← _keycode k
    let tail ← resolve_keys rest
    .ok ((mv, kv) :: tail)

/-- Source `key_count == 0` normalization: an empty resolved list becomes `[(0, 0)]`. -/
def normalize_resolved (r : List (Nat × Nat)) : List (Nat × Nat) :=
  if r = [] then [(0, 0)] else r

/-- The `(mod, keycode)` byte pairs appended to the write payload. -/
def pairs_bytes (r : List (Nat × Nat)) : List Nat :=
  r.foldr (fun p acc => p.1 % 256 :: p.2 % 256 :: acc) []

/-- The unpadded button-write payload: header bytes 0-10 then the pairs. -/
def build_button_payload (button_id layer : Nat) (r : List (Nat × Nat)) : List Nat :=
  [0x03, 0xFD, button_id % 256, layer % 256,
   0x01, 0x00, 0x00, 0x00, 0x00, 0x00, r.length % 256] ++ pairs_bytes r

/-- The 65-byte button-write frame `write_button` sends (resolve,
normalize, build, pad/truncate to 65). -/
def write_button_frame (button_id layer : Nat) (keys : List (JVal × JVal)) :
    Except String (List Nat) := do
  let resolved ← resolve_keys keys
  .ok (pad_report (build_button_payload button_id layer (normalize_resolved resolved)))

/-- One emitted protocol action: a sent frame or a `time.sleep` (in ms). -/
inductive Event where
  | send (frame : List Nat)
  | sleep (ms : Nat)
deriving DecidableEq

/-- Source `write_button`: write frame, commit frame, 200 ms delay. -/
def write_button_events (button_id layer : Nat) (keys : List (JVal × JVal)) :
    Except String (List Event) := do
  let f ← write_button_frame button_id layer keys
  .ok [.send f, .send commit_report, .sleep 200]

/-- The 65-byte layer-config frame: `03 fe b0 <layer> <config_byte>` + 60 data bytes. -/
def write_layer_config_frame (layer config_byte : Nat) (config_data : List Nat) : List Nat :=
  ([0x03, 0xFE, 0xB0, layer % 256, config_byte % 256] ++
    (config_data.take 60 ++ List.replicate (60 - (config_data.take 60).length) 0)).take REPORT_SIZE

/-- Source `write_layer_config`: config frame, commit frame, 200 ms delay. -/
def write_layer_config_events (layer config_byte : Nat) (config_data : List Nat) : List Event :=
  [.send (write_layer_config_frame layer config_byte config_data),
   .send commit_report, .sleep 200]

/-- The 60-byte `0x08` config payload: byte 5 = 1, byte 7 = LED byte
(default `0x11`, static red). -/
def config_data_08 (led : Option (Nat × Nat)) : List Nat :=
  ((List.replicate 60 0).set 5 1).set 7
    (match led with
     | some (e, c) => make_led_byte e c
     | none => 0x11)

/-- The 60-byte `0x05` config payload: byte 0 = 0xd0, byte 5 = 1, byte 7 = 0x10. -/
def config_data_05 : List Nat :=
  (((List.replicate 60 0).set 0 0xD0).set 5 1).set 7 0x10

/-- Source `write_all_layer_configs`: per sorted layer, the `0x08` config
write+commit then (unless LED-only) the `0x05` config write+commit. -/
def write_all_layer_configs_events (layers : List Nat) (leds : List (Nat × Nat × Nat))
    (led_only : Bool) : List Event :=
  ((List.insertionSort (· ≤ ·) layers).map (fun layer =>
    write_layer_config_events layer 0x08 (config_data_08 (List.lookup layer leds)) ++
      if led_only then [] else write_layer_config_events layer 0x05 config_data_05)).flatten

/-- Source `save_to_board`: the save frame then the 200 ms delay. -/
def save_to_board_events : List Event := [.send save_report, .sleep 200]

-- --- Programming run (source lines 500-529, 666-667) ---

/-- A parsed configuration: layer to list of (button id, keystroke specs). -/
abbrev Config := List (Nat × List (Nat × List (JVal × JVal)))

/-- The skip-unbound test in `program_from_config`: a single keystroke
resolving to keycode 0 with modifier 0. -/
def is_unbound (keys : List (JVal × JVal)) : Except String Bool :=
  match keys with
  | [(k, m)] => do
    let kc ← _keycode k
    if kc = 0 then do
      let mv ← _modifier m
      .ok (mv = 0)
    else .ok false
  | _ => .ok false

/-- The inner loop of `program_from_config` for one layer: skip unbound
bindings, emit a `write_button` block for each bound one. -/
def layer_button_events (layer : Nat) : List (Nat × List (JVal × JVal)) →
    Except String (List Event)
  | [] => .ok []
  | (btn_id, keys) :: rest => do
    let u ← is_unbound keys
    if u then layer_button_events layer rest
    else do
      let ev ← write_button_events btn_id layer keys
      let tail ← layer_button_events layer rest
      .ok (ev ++ tail)

/-- Python `sorted(config.keys())`. -/
def sorted_layers (config : Config) : List Nat :=
  List.insertionSort (· ≤ ·) (config.map Prod.fst)

/-- The outer loop of `program_from_config` over sorted layers. -/
def all_button_events (config : Config) : List Nat → Except String (List Event)
  | [] => .ok []
  | l :: rest => do
    let ev ← layer_button_events l ((List.lookup l config).getD [])
    let tail ← all_button_events config rest
    .ok (ev ++ tail)

/-- Source `program_from_config`: all button writes (all layers, sorted), then
all layer configs. -/
def program_from_config_events (config : Config) (leds : List (Nat × Nat × Nat)) :
    Except String (List Event) := do
  let btns ← all_button_events config (sorted_layers config)
  .ok (btns ++ write_all_layer_configs_events (sorted_layers config) leds false)

/-- The programming run of `main`: `program_from_config` then `save_to_board`. -/
def run_events (config : Config) (leds : List (Nat × Nat × Nat)) :
    Except String (List Event) := do
  let p ← program_from_config_events config leds
  .ok (p ++ save_to_board_events)

-- --- Readback decoder (source lines 441-469) ---

/-- The readback request frame `03 fa 0f 03 <layer> 05`. -/
def read_request_frame (layer : Nat) : List Nat :=
  make_report [0x03, 0xFA, 0x0F, 0x03, layer % 256, 0x05]

/-- Decode one response frame: `(buttonId, bindingType, keystrokes)`;
a pair is kept only when both its bytes lie within the frame. -/
def decode_response (data : List Nat) : Nat × Nat × List (Nat × Nat) :=
  (data.getD 2 0, data.getD 10 0,
   (List.range (data.getD 10 0)).filterMap (fun i =>
     if 11 + 2 * i + 1 < data.length then
       some (data.getD (11 + 2 * i) 0, data.getD (11 + 2 * i + 1) 0)
     else none))

/-- Python dict assignment `result[btn_id] = v`: replace in place or append. -/
def dict_insert (d : List (Nat × Nat × List (Nat × Nat))) (k : Nat)
    (v : Nat × List (Nat × Nat)) : List (Nat × Nat × List (Nat × Nat)) :=
  match d with
  | [] => [(k, v)]
  | (k', v') :: rest => if k' = k then (k, v) :: rest else (k', v') :: dict_insert rest k v

/-- One iteration of the read loop: frames shorter than 13 bytes are skipped. -/
def read_step (acc : List (Nat × Nat × List (Nat × Nat))) (data : List Nat) :
    List (Nat × Nat × List (Nat × Nat)) :=
  if data.length < 13 then acc
  else dict_insert acc (decode_response data).1 (decode_response data).2

/-- Source `read_all_buttons` over the response frames of one pass (the loop
reads at most `BUTTONS_PER_LAYER` frames; a timeout just ends the list). -/
def read_all_buttons (frames : List (List Nat)) : List (Nat × Nat × List (Nat × Nat)) :=
  (frames.take BUTTONS_PER_LAYER).foldl read_step []

-- --- Verification (source lines 669-693) ---

/-- The verification loop of `main`: for each intended layer-1 binding,
a missing readback entry is skipped, only single-keystroke bindings are
compared, and a first-keystroke mismatch records a warning. -/
def verify_loop (readback : List (Nat × Nat × List (Nat × Nat))) :
    List (Nat × List (JVal × JVal)) → Except String (List Nat)
  | [] => .ok []
  | (btn_id, expected) :: rest =>
    match List.lookup btn_id readback with
    | none => verify_loop readback rest
    | some (_btype, actual) =>
      match expected with
      | [(k, m)] => do
        let kc ← _keycode k
        let mv ← _modifier m
        let tail ← verify_loop readback rest
        match actual with
        | [] => .ok tail
        | a :: _ => if a = (mv, kc) then .ok tail else .ok (btn_id :: tail)
      | _ => verify_loop readback rest

/-- The verification phase of `main`: read back layer 1 only, compare
layer-1 intended bindings; any exception is caught (non-fatal). -/
def verify_phase (config : Config) (device : Nat → List (List Nat)) : List Nat :=
  match verify_loop (read_all_buttons (device 1)) ((List.lookup 1 config).getD []) with
  | .ok ws => ws
  | .error _ => []

-- --- Decidable equality for Except (used to evaluate results concretely) ---

def exceptDecEqFn {ε α : Type} [DecidableEq ε] [DecidableEq α] :
    (a b : Except ε α) → Decidable (a = b)
  | .error x, .error y =>
    if h : x = y then .isTrue (by rw [h]) else .isFalse (fun hh => h (by injection hh))
  | .error _, .ok _ => .isFalse (fun hh => Except.noConfusion hh)
  | .ok _, .error _ => .isFalse (fun hh => Except.noConfusion hh)
  | .ok x, .ok y =>
    if h : x = y then .isTrue (by rw [h]) else .isFalse (fun hh => h (by injection hh))

instance {ε α : Type} [DecidableEq ε] [DecidableEq α] : DecidableEq (Except ε α) :=
  exceptDecEqFn

-- --- List helper lemmas ---

theorem getD_take (l : List Nat) (n i d : Nat) (h : i < n) :
    (l.take n).getD i d = l.getD i d := by
  simp [List.getD_eq_getElem?_getD, List.getElem?_take_of_lt h]

theorem pairs_bytes_cons (p : Nat × Nat) (r : List (Nat × Nat)) :
    pairs_bytes (p :: r) = p.1 % 256 :: p.2 % 256 :: pairs_bytes r := rfl

theorem pairs_bytes_length (r : List (Nat × Nat)) : (pairs_bytes r).length = 2 * r.length := by
  induction r with
  | nil => rfl
  | cons p r ih => rw [pairs_bytes_cons]; simp [ih]; omega

theorem pairs_getD_fst (r : List (Nat × Nat)) (t : List Nat) (i : Nat) (h : i < r.length) :
    (pairs_bytes r ++ t).getD (2 * i) 0 = (r.getD i (0, 0)).1 % 256 := by
  induction r generalizing i with
  | nil => simp at h
  | cons p r ih =>
    cases i with
    | zero => simp [pairs_bytes_cons]
    | succ i =>
      have h2 : 2 * (i + 1) = 2 * i + 1 + 1 := by ring
      rw [h2, pairs_bytes_cons, List.cons_append, List.cons_append]
      simp only [List.getD_cons_succ]
      exact ih i (by simpa using h)

theorem pairs_getD_snd (r : List (Nat × Nat)) (t : List Nat) (i : Nat) (h : i < r.length) :
    (pairs_bytes r ++ t).getD (2 * i + 1) 0 = (r.getD i (0, 0)).2 % 256 := by
  induction r generalizing i with
  | nil => simp at h
  | cons p r ih =>
    cases i with
    | zero => simp [pairs_bytes_cons]
    | succ i =>
      have h2 : 2 * (i + 1) + 1 = 2 * i + 1 + 1 + 1 := by ring
      rw [h2, pairs_bytes_cons, List.cons_append, List.cons_append]
      simp only [List.getD_cons_succ]
      exact ih i (by simpa using h)

theorem range_map_getD (r : List (Nat × Nat)) (k : Nat) (h : k ≤ r.length) :
    (List.range k).map (fun i => r.getD i (0, 0)) = r.take k := by
  induction r generalizing k with
  | nil =>
    have hk : k = 0 := by simpa using h
    subst hk; rfl
  | cons p r ih =>
    cases k with
    | zero => rfl
    | succ k =>
      rw [List.range_succ_eq_map, List.map_cons, List.map_map]
      simp only [Function.comp_def, List.getD_cons_succ, List.getD_cons_zero]
      rw [ih k (by simpa using h), List.take_succ_cons]

theorem filterMap_eq_map_of_all {α β : Type} (l : List α) (f : α → Option β) (g : α → β)
    (h : ∀ a ∈ l, f a = some (g a)) : l.filterMap f = l.map g := by
  induction l with
  | nil => rfl
  | cons x xs ih =>
    rw [List.filterMap_cons_some (h x (List.mem_cons_self x xs)), List.map_cons,
        ih (fun a ha => h a (List.mem_cons_of_mem x ha))]

theorem filterMap_eq_nil_of_all {α β : Type} (l : List α) (f : α → Option β)
    (h : ∀ a ∈ l, f a = none) : l.filterMap f = [] := by
  induction l with
  | nil => rfl
  | cons x xs ih =>
    rw [List.filterMap_cons_none (h x (List.mem_cons_self x xs)),
        ih (fun a ha => h a (List.mem_cons_of_mem x ha))]

-- --- Frame layout lemmas ---

theorem pad_report_length (p : List Nat) : (pad_report p).length = 65 := by
  simp [pad_report, REPORT_SIZE]
  omega

theorem build_button_payload_length (btn layer : Nat) (r : List (Nat × Nat)) :
    (build_button_payload btn layer r).length = 11 + 2 * r.length := by
  simp [build_button_payload, pairs_bytes_length]
  omega

theorem button_frame_eq (btn layer : Nat) (r : List (Nat × Nat)) (h : r.length ≤ 27) :
    pad_report (build_button_payload btn layer r) =
      build_button_payload btn layer r ++ List.replicate (54 - 2 * r.length) 0 := by
  have hlen := build_button_payload_length btn layer r
  rw [pad_report]
  have h1 : REPORT_SIZE - (build_button_payload btn layer r).length = 54 - 2 * r.length := by
    rw [hlen]; simp [REPORT_SIZE]; omega
  rw [h1]
  apply List.take_of_length_le
  simp [hlen, REPORT_SIZE]
  omega

theorem button_frame_getD_2 (btn layer : Nat) (r : List (Nat × Nat)) :
    (pad_report (build_button_payload btn layer r)).getD 2 0 = btn % 256 := rfl

theorem button_frame_getD_10 (btn layer : Nat) (r : List (Nat × Nat)) :
    (pad_report (build_button_payload btn layer r)).getD 10 0 = r.length % 256 := rfl

theorem getD_append_ge (a b : List Nat) (n d : Nat) :
    (a ++ b).getD (a.length + n) d = b.getD n d := by
  induction a with
  | nil => simp
  | cons x xs ih =>
    rw [List.cons_append,
        show (x :: xs).length + n = xs.length + n + 1 from by simp [List.length_cons]; omega,
        List.getD_cons_succ]
    exact ih

theorem button_frame_pair_fst (btn layer : Nat) (r : List (Nat × Nat)) (i : Nat)
    (hi : i < r.length) (h27 : i < 27) :
    (pad_report (build_button_payload btn layer r)).getD (11 + 2 * i) 0 =
      (r.getD i (0, 0)).1 % 256 := by
  rw [pad_report]
  simp only [REPORT_SIZE]
  rw [getD_take _ 65 _ 0 (by omega), build_button_payload, List.append_assoc]
  have hh : ([0x03, 0xFD, btn % 256, layer % 256, 0x01, 0x00, 0x00, 0x00, 0x00, 0x00,
      r.length % 256] : List Nat).length = 11 := by simp
  rw [show (11 : Nat) + 2 * i = 11 + 2 * i from rfl, ← hh, getD_append_ge]
  exact pairs_getD_fst r _ i hi

theorem button_frame_pair_snd (btn layer : Nat) (r : List (Nat × Nat)) (i : Nat)
    (hi : i < r.length) (h27 : i < 27) :
    (pad_report (build_button_payload btn layer r)).getD (11 + 2 * i + 1) 0 =
      (r.getD i (0, 0)).2 % 256 := by
  rw [pad_report]
  simp only [REPORT_SIZE]
  rw [getD_take _ 65 _ 0 (by omega), build_button_payload, List.append_assoc]
  have hh : ([0x03, 0xFD, btn % 256, layer % 256, 0x01, 0x00, 0x00, 0x00, 0x00, 0x00,
      r.length % 256] : List Nat).length = 11 := by simp
  rw [show (11 : Nat) + 2 * i + 1 = 11 + (2 * i + 1) from by omega, ← hh, getD_append_ge]
  exact pairs_getD_snd r _ i hi

/-- Decoding the built button frame: button id and count bytes are the
masked inputs, and the keystrokes are the first 27 pairs. -/
theorem decode_button_frame (btn layer : Nat) (r : List (Nat × Nat))
    (h256 : r.length < 256) (hb : ∀ p ∈ r, p.1 < 256 ∧ p.2 < 256) :
    (decode_response (pad_report (build_button_payload btn layer r))).1 = btn % 256 ∧
    (decode_response (pad_report (build_button_payload btn layer r))).2.1 = r.length ∧
    (decode_response (pad_report (build_button_payload btn layer r))).2.2 = r.take 27 := by
  have hfrlen : (pad_report (build_button_payload btn layer r)).length = 65 :=
    pad_report_length _
  have h10 : (pad_report (build_button_payload btn layer r)).getD 10 0 = r.length := by
    rw [button_frame_getD_10, Nat.mod_eq_of_lt h256]
  have hpair : ∀ i, i < r.length → i < 27 →
      ((pad_report (build_button_payload btn layer r)).getD (11 + 2 * i) 0,
       (pad_report (build_button_payload btn layer r)).getD (11 + 2 * i + 1) 0) =
        r.getD i (0, 0) := by
    intro i hi h27
    have hmem : r.getD i (0, 0) ∈ r := by
      rw [List.getD_eq_getElem r (0, 0) hi]
      exact List.getElem_mem hi
    have hbd := hb _ hmem
    rw [button_frame_pair_fst btn layer r i hi h27, button_frame_pair_snd btn layer r i hi h27,
        Nat.mod_eq_of_lt hbd.1, Nat.mod_eq_of_lt hbd.2]
  refine ⟨button_frame_getD_2 btn layer r, h10, ?_⟩
  show (List.range ((pad_report (build_button_payload btn layer r)).getD 10 0)).filterMap
      (fun i =>
        if 11 + 2 * i + 1 < (pad_report (build_button_payload btn layer r)).length then
          some ((pad_report (build_button_payload btn layer r)).getD (11 + 2 * i) 0,
            (pad_report (build_button_payload btn layer r)).getD (11 + 2 * i + 1) 0)
        else none) = r.take 27
  rw [h10, hfrlen]
  by_cases hle : r.length ≤ 27
  · calc (List.range r.length).filterMap
          (fun i =>
            if 11 + 2 * i + 1 < 65 then
              some ((pad_report (build_button_payload btn layer r)).getD (11 + 2 * i) 0,
                (pad_report (build_button_payload btn layer r)).getD (11 + 2 * i + 1) 0)
            else none)
        = (List.range r.length).map
            (fun i => ((pad_report (build_button_payload btn layer r)).getD (11 + 2 * i) 0,
              (pad_report (build_button_payload btn layer r)).getD (11 + 2 * i + 1) 0)) :=
          filterMap_eq_map_of_all _ _ _ (fun i hi => by
            rw [List.mem_range] at hi
            rw [if_pos (by omega)])
      _ = (List.range r.length).map (fun i => r.getD i (0, 0)) :=
          List.map_congr_left (fun i hi => by
            rw [List.mem_range] at hi
            exact hpair i hi (by omega))
      _ = r.take r.length := range_map_getD r r.length le_rfl
      _ = r := List.take_length r
      _ = r.take 27 := (List.take_of_length_le hle).symm
  · have hsplit : r.length = 27 + (r.length - 27) := by omega
    rw [hsplit, List.range_add, List.filterMap_append, List.filterMap_map]
    calc (List.range 27).filterMap
          (fun i =>
            if 11 + 2 * i + 1 < 65 then
              some ((pad_report (build_button_payload btn layer r)).getD (11 + 2 * i) 0,
                (pad_report (build_button_payload btn layer r)).getD (11 + 2 * i + 1) 0)
            else none) ++
          (List.range (r.length - 27)).filterMap
            ((fun i =>
              if 11 + 2 * i + 1 < 65 then
                some ((pad_report (build_button_payload btn layer r)).getD (11 + 2 * i) 0,
                  (pad_report (build_button_payload btn layer r)).getD (11 + 2 * i + 1) 0)
              else none) ∘ fun x => 27 + x)
        = (List.range 27).map
            (fun i => ((pad_report (build_button_payload btn layer r)).getD (11 + 2 * i) 0,
              (pad_report (build_button_payload btn layer r)).getD (11 + 2 * i + 1) 0)) ++
          ([] : List (Nat × Nat)) := by
          rw [filterMap_eq_map_of_all _ _ _ (fun i hi => by
            rw [List.mem_range] at hi
            rw [if_pos (by omega)])]
          rw [filterMap_eq_nil_of_all _ _ (fun i _ => by
            simp only [Function.comp_apply]
            exact if_neg (by omega))]
      _ = (List.range 27).map (fun i => r.getD i (0, 0)) := by
          rw [List.append_nil]
          exact List.map_congr_left (fun i hi => by
            rw [List.mem_range] at hi
            exact hpair i (by omega) hi)
      _ = r.take 27 := range_map_getD r 27 (by omega)

-- --- Claim C1 ---

/-- C1: for every valid binding spec B (nonempty list of keystroke
specs resolving to at most 27 byte-ranged (modifier, key) pairs),
decoding the bytes of the button-write frame built for B with the
readback decoder's layout (count = byte 10, pairs from byte 11)
reproduces exactly the same ordered (modifier, key) sequence B resolves
to. -/
theorem c1_roundtrip (btn layer : Nat) (keys : List (JVal × JVal))
    (resolved : List (Nat × Nat)) (fr : List Nat)
    (hres : resolve_keys keys = .ok resolved)
    (hne : resolved ≠ [])
    (hlen : resolved.length ≤ 27)
    (hb : ∀ p ∈ resolved, p.1 < 256 ∧ p.2 < 256)
    (hfr : write_button_frame btn layer keys = .ok fr) :
    (decode_response fr).2.2 = resolved ∧ (decode_response fr).2.1 = resolved.length := by
  have hfr' : fr = pad_report (build_button_payload btn layer resolved) := by
    simp only [write_button_frame, hres, Except.bind, Bind.bind, normalize_resolved,
      if_neg hne, Except.ok.injEq] at hfr
    exact hfr.symm
  have h := decode_button_frame btn layer resolved (by omega) hb
  refine ⟨?_, ?_⟩
  · rw [hfr', h.2.2, List.take_of_length_le hlen]
  · rw [hfr', h.2.1]

/-- Witness for C1 at button 1, layer 1, key "a" with no modifier. -/
theorem c1_roundtrip_witness :
    (decode_response
        ((write_button_frame 1 1 [(JVal.str "a", JVal.num 0)]).toOption.getD [])).2.2
      = [(0, 4)] ∧
    (decode_response
        ((write_button_frame 1 1 [(JVal.str "a", JVal.num 0)]).toOption.getD [])).2.1
      = 1 :=
  c1_roundtrip 1 1 [(JVal.str "a", JVal.num 0)] [(0, 4)]
    ((write_button_frame 1 1 [(JVal.str "a", JVal.num 0)]).toOption.getD [])
    (by decide) (by decide) (by decide) (by decide) (by decide)

-- --- Claim C2 ---

/-- C2: the button-write frame for buttonId 1, layer 1, key "a"
(keycode 4), no modifier, is exactly `03 FD 01 01 01 00 00 00 00 00 01
00 04` followed by 52 zero bytes; in general the frame is the header
`[03, FD, buttonId, layer, 01, 0, 0, 0, 0, 0, count]` followed by the
(mod, key) pairs, zero-padded to 65 bytes, and the count is at least 1
(an empty keystroke list is normalized to the single pair (0, 0)). -/
theorem c2_button_write_frame :
    (write_button_frame 1 1 [(JVal.str "a", JVal.num 0)] =
      .ok ([0x03, 0xFD, 0x01, 0x01, 0x01, 0, 0, 0, 0, 0, 0x01, 0x00, 0x04] ++
        List.replicate 52 0)) ∧
    (∀ btn layer : Nat, ∀ r : List (Nat × Nat), r.length ≤ 27 →
      pad_report (build_button_payload btn layer r) =
        [0x03, 0xFD, btn % 256, layer % 256, 0x01, 0x00, 0x00, 0x00, 0x00, 0x00,
          r.length % 256] ++ pairs_bytes r ++ List.replicate (54 - 2 * r.length) 0) ∧
    normalize_resolved [] = [(0, 0)] ∧
    (∀ r : List (Nat × Nat), 1 ≤ (normalize_resolved r).length) := by
  refine ⟨by decide, ?_, rfl, ?_⟩
  · intro btn layer r h
    rw [button_frame_eq btn layer r h, build_button_payload, List.append_assoc]
  · intro r
    cases r <;> simp [normalize_resolved]

/-- Witness for the general frame-layout part of C2. -/
theorem c2_button_write_frame_witness :
    pad_report (build_button_payload 2 1 [(0, 5)]) =
      [0x03, 0xFD, 2 % 256, 1 % 256, 0x01, 0x00, 0x00, 0x00, 0x00, 0x00,
        ([(0, 5)] : List (Nat × Nat)).length % 256] ++ pairs_bytes [(0, 5)] ++
        List.replicate (54 - 2 * ([(0, 5)] : List (Nat × Nat)).length) 0 ∧
    1 ≤ (normalize_resolved [(9, 9)]).length :=
  ⟨c2_button_write_frame.2.1 2 1 [(0, 5)] (by decide), c2_button_write_frame.2.2.2 [(9, 9)]⟩

-- --- Claim C3 ---

/-- A binding spec of 28 identical keystrokes "a". -/
def keys28 : List (JVal × JVal) := List.replicate 28 (JVal.str "a", JVal.num 0)

/-- C3 counterexample: a 28-keystroke binding (over the 27-keystroke
frame capacity) is NOT rejected with a capacity error: `write_button`
succeeds, and the frame it builds and sends is 65 bytes with count byte
28 but only 27 decodable (mod, key) pairs. -/
theorem c3_counterexample :
    (write_button_events 1 1 keys28).isOk = true ∧
    (write_button_frame 1 1 keys28).map
        (fun fr => (fr.length, fr.getD 10 0, (decode_response fr).2.2.length)) =
      .ok (65, 28, 27) := by decide

/-- The 28 resolved (modifier, keycode) pairs of `keys28`. -/
def r28 : List (Nat × Nat) := List.replicate 28 (0, 4)

/-- C3 amended: a binding of more than 27 keystrokes is not rejected:
frame building never fails once key resolution succeeds, and the frame
is sent truncated to 65 bytes — its count byte holds the full keystroke
count while only the first 27 (modifier, key) pairs are encoded. -/
theorem c3_truncation (btn layer : Nat) (r : List (Nat × Nat))
    (h27 : 27 < r.length) (h256 : r.length < 256)
    (hb : ∀ p ∈ r, p.1 < 256 ∧ p.2 < 256) :
    (∀ (keys : List (JVal × JVal)) (resolved : List (Nat × Nat)),
        resolve_keys keys = .ok resolved →
        (write_button_frame btn layer keys).isOk = true) ∧
    (pad_report (build_button_payload btn layer r)).length = 65 ∧
    (pad_report (build_button_payload btn layer r)).getD 10 0 = r.length ∧
    (decode_response (pad_report (build_button_payload btn layer r))).2.2 = r.take 27 ∧
    (decode_response (pad_report (build_button_payload btn layer r))).2.2.length = 27 := by
  refine ⟨?_, pad_report_length _, ?_, (decode_button_frame btn layer r h256 hb).2.2, ?_⟩
  · intro keys resolved hres
    simp [write_button_frame, hres, Except.bind, Bind.bind, Except.isOk, Except.toBool]
  · rw [button_frame_getD_10, Nat.mod_eq_of_lt h256]
  · rw [(decode_button_frame btn layer r h256 hb).2.2]
    simp [List.length_take]
    omega

/-- Witness for C3's amended statement at 28 keystrokes "a". -/
theorem c3_truncation_witness :
    (write_button_frame 1 1 keys28).isOk = true ∧
    (pad_report (build_button_payload 1 1 r28)).getD 10 0 = r28.length ∧
    (decode_response (pad_report (build_button_payload 1 1 r28))).2.2 = r28.take 27 :=
  ⟨(c3_truncation 1 1 r28 (by decide) (by decide) (by decide)).1 keys28 r28 (by decide),
   (c3_truncation 1 1 r28 (by decide) (by decide) (by decide)).2.2.1,
   (c3_truncation 1 1 r28 (by decide) (by decide) (by decide)).2.2.2.1⟩

-- --- Claim C6 ---

/-- C6 counterexample: a malformed binding (JSON null) under an
in-range layer aborts `load_config` with an error instead of being
skipped with the run continuing; the following well-formed item is
never reached. -/
theorem c6_counterexample :
    (load_config [(1, [("key1", JVal.null), ("key2", JVal.str "a")])]).isOk = false := by
  decide

/-- C6 amended: an out-of-range layer is reported with a warning and
skipped, the run continuing with the remaining items; a malformed
binding or LED spec is not skipped — it aborts config loading with the
parse error. -/
theorem c6_error_handling :
    (∀ (L : Int) (d : LayerDict) rest, (L < 1 ∨ 3 < L) →
      load_config ((L, d) :: rest) =
        (load_config rest).map (fun blw => (blw.1, blw.2.1, warn_msg L :: blw.2.2))) ∧
    (∀ (L : Int) (d : LayerDict) rest e, 1 ≤ L → L ≤ 3 →
      parse_led_config d = .error e → load_config ((L, d) :: rest) = .error e) ∧
    (∀ (L : Int) (d : LayerDict) rest led e, 1 ≤ L → L ≤ 3 →
      parse_led_config d = .ok led → process_layer_bindings d = .error e →
      load_config ((L, d) :: rest) = .error e) := by
  refine ⟨?_, ?_, ?_⟩
  · intro L d rest h
    simp only [load_config, if_pos h]
    cases hrest : load_config rest with
    | error e => simp [Except.bind, Bind.bind, Except.map]
    | ok blw =>
      obtain ⟨b, l, w⟩ := blw
      simp [Except.bind, Bind.bind, Except.map]
  · intro L d rest e h1 h2 hled
    have hn : ¬ (L < 1 ∨ 3 < L) := by omega
    simp only [load_config, if_neg hn, hled, Except.bind, Bind.bind]
  · intro L d rest led e h1 h2 hled hpb
    have hn : ¬ (L < 1 ∨ 3 < L) := by omega
    simp only [load_config, if_neg hn, hled, hpb, Except.bind, Bind.bind]

/-- Witness for C6's amended statement. -/
theorem c6_error_handling_witness :
    load_config [((5 : Int), ([] : LayerDict))] = .ok ([], [], [warn_msg 5]) ∧
    load_config [((1 : Int), [("led", JVal.dict [("color", JVal.str "nope")])])] =
      .error ("Unknown LED color nope") ∧
    load_config [((1 : Int), [("key1", JVal.num 7)])] = .error "Invalid binding" := by
  refine ⟨?_, ?_, ?_⟩
  · exact Eq.trans (c6_error_handling.1 5 [] [] (by omega)) (by rfl)
  · exact c6_error_handling.2.1 1 [("led", JVal.dict [("color", JVal.str "nope")])] []
      "Unknown LED color nope" (by omega) (by omega) (by decide)
  · exact c6_error_handling.2.2 1 [("key1", JVal.num 7)] [] none "Invalid binding"
      (by omega) (by omega) (by rfl) (by rfl)

-- --- Claim C7 ---

/-- A 13-byte response frame whose count byte claims 2 pairs. -/
def frame13 : List Nat := [0x03, 0xFA, 5, 1, 1, 0, 0, 0, 0, 0, 2, 0, 4]

/-- C7 counterexample: a 13-byte (hence at least 13 bytes long)
response with bindingCount byte 2 decodes to a single pair, not
bindingCount pairs. -/
theorem c7_counterexample :
    List.lookup 5 (read_all_buttons [frame13]) = some (2, [(0, 4)]) ∧
    ¬ (([(0, 4)] : List (Nat × Nat)).length = 2) := by decide

/-- C7 amended: decoding a response frame yields buttonId = byte 2,
bindingCount = byte 10, and the (modifier, key) pairs at bytes 11+2i,
12+2i for each i < bindingCount lying fully inside the frame — exactly
bindingCount pairs whenever 11 + 2*bindingCount is at most the frame
length; a frame shorter than 13 bytes is skipped and contributes no
entry to the decoded mapping. -/
theorem c7_decode :
    (∀ (data : List Nat) acc, data.length < 13 → read_step acc data = acc) ∧
    (∀ (data : List Nat) acc, 13 ≤ data.length →
      read_step acc data =
        dict_insert acc (data.getD 2 0) (data.getD 10 0, (decode_response data).2.2)) ∧
    (∀ data : List Nat,
      (decode_response data).1 = data.getD 2 0 ∧
      (decode_response data).2.1 = data.getD 10 0) ∧
    (∀ data : List Nat, 11 + 2 * (data.getD 10 0) ≤ data.length →
      (decode_response data).2.2 =
        (List.range (data.getD 10 0)).map
          (fun i => (data.getD (11 + 2 * i) 0, data.getD (11 + 2 * i + 1) 0)) ∧
      (decode_response data).2.2.length = data.getD 10 0) := by
  refine ⟨?_, ?_, fun data => ⟨rfl, rfl⟩, ?_⟩
  · intro data acc h
    simp [read_step, h]
  · intro data acc h
    simp only [read_step, if_neg (Nat.not_lt.2 h)]
    rfl
  · intro data h
    have hmap : (decode_response data).2.2 =
        (List.range (data.getD 10 0)).map
          (fun i => (data.getD (11 + 2 * i) 0, data.getD (11 + 2 * i + 1) 0)) := by
      show (List.range (data.getD 10 0)).filterMap _ = _
      exact filterMap_eq_map_of_all _ _ _ (fun i hi => by
        rw [List.mem_range] at hi
        rw [if_pos (by omega)])
    refine ⟨hmap, ?_⟩
    rw [hmap]
    simp

/-- A full 65-byte response frame with two pairs. -/
def frame65 : List Nat :=
  [0x03, 0xFA, 5, 1, 1, 0, 0, 0, 0, 0, 2, 0, 4, 0, 6] ++ List.replicate 50 0

/-- Witness for C7's amended statement. -/
theorem c7_decode_witness :
    read_step [] [1, 2, 3] = [] ∧
    read_step [(9, 0, [])] frame13 =
      dict_insert [(9, 0, [])] (frame13.getD 2 0)
        (frame13.getD 10 0, (decode_response frame13).2.2) ∧
    (decode_response frame65).2.2 =
      (List.range (frame65.getD 10 0)).map
        (fun i => (frame65.getD (11 + 2 * i) 0, frame65.getD (11 + 2 * i + 1) 0)) ∧
    (decode_response frame65).2.2.length = frame65.getD 10 0 :=
  ⟨c7_decode.1 [1, 2, 3] [] (by decide),
   c7_decode.2.1 frame13 [(9, 0, [])] (by decide),
   (c7_decode.2.2.2 frame65 (by decide)).1,
   (c7_decode.2.2.2 frame65 (by decide)).2⟩

-- --- Claim C8 ---

/-- C8 counterexample: the structured pair {key: "c", mod: "foo"} with
the unknown modifier name "foo" parses and encodes successfully — the
modifier byte (index 11) is silently 0 — instead of failing with an
error naming the token. -/
theorem c8_counterexample :
    (parse_binding (JVal.dict [("key", JVal.str "c"), ("mod", JVal.str "foo")])).bind
        (write_button_frame 1 1) =
      .ok ([0x03, 0xFD, 1, 1, 1, 0, 0, 0, 0, 0, 1, 0x00, 0x06] ++ List.replicate 52 0) := by
  decide

/-- C8 amended: an unknown modifier token inside a compound
"mod+...+key" string fails at parse time with an error naming the
token; but in a structured {key, mod} pair an unknown modifier name is
silently resolved to modifier 0 by `_modifier`, with no error. -/
theorem c8_unknown_modifier :
    (∀ (pre : List String) (p : String) (post : List String),
      ∀ acc : Nat, (∀ q ∈ pre, (List.lookup (strTrim q) MODIFIER).isSome = true) →
      List.lookup (strTrim p) MODIFIER = none →
      parse_mods acc (pre ++ p :: post) = .error (unknown_modifier_msg (strTrim p))) ∧
    (∀ (v e : String), strContainsChar '+' v = true →
      parse_mods 0 ((strSplit '+' (strLower v)).dropLast) = .error e →
      _parse_single_binding (.str v) = .error e) ∧
    (∀ s : String, List.lookup (strTrim (strLower s)) MODIFIER = none →
      _modifier (.str s) = .ok 0) := by
  refine ⟨?_, ?_, ?_⟩
  · intro pre p post
    induction pre with
    | nil =>
      intro acc _ hp
      simp only [List.nil_append]
      simp [parse_mods, hp]
    | cons q pre ih =>
      intro acc hpre hp
      obtain ⟨m, hm⟩ := Option.isSome_iff_exists.1 (hpre q (List.mem_cons_self q pre))
      rw [List.cons_append]
      simp only [parse_mods, hm]
      exact ih (Nat.lor acc m) (fun q' hq' => hpre q' (List.mem_cons_of_mem q hq')) hp
  · intro v e hc hpm
    simp only [_parse_single_binding, hc, if_true, hpm]
  · intro s h
    simp [_modifier, h]

/-- Witness for C8's amended statement. -/
theorem c8_unknown_modifier_witness :
    parse_mods 0 (["foo"] : List String) = .error (unknown_modifier_msg (strTrim "foo")) ∧
    _parse_single_binding (.str "foo+a") = .error (unknown_modifier_msg (strTrim "foo")) ∧
    _modifier (.str "FOO") = .ok 0 :=
  ⟨c8_unknown_modifier.1 [] "foo" [] 0 (fun q hq => absurd hq (List.not_mem_nil q)) (by decide),
   c8_unknown_modifier.2.1 "foo+a" (unknown_modifier_msg (strTrim "foo")) (by decide) (by decide),
   c8_unknown_modifier.2.2 "FOO" (by decide)⟩

-- --- Claim C10 ---

theorem lookup_dict_insert_self (d : List (Nat × Nat × List (Nat × Nat))) (k : Nat)
    (v : Nat × List (Nat × Nat)) : List.lookup k (dict_insert d k v) = some v := by
  induction d with
  | nil => simp [dict_insert, List.lookup]
  | cons p rest ih =>
    obtain ⟨k', v'⟩ := p
    by_cases h : k' = k
    · simp [dict_insert, h, List.lookup]
    · simp [dict_insert, h, List.lookup, beq_eq_false_iff_ne.mpr (Ne.symm h), ih]

theorem lookup_dict_insert_ne (d : List (Nat × Nat × List (Nat × Nat))) (k b : Nat)
    (v : Nat × List (Nat × Nat)) (h : k ≠ b) :
    List.lookup b (dict_insert d k v) = List.lookup b d := by
  induction d with
  | nil => simp [dict_insert, List.lookup, beq_eq_false_iff_ne.mpr (Ne.symm h)]
  | cons p rest ih =>
    obtain ⟨k', v'⟩ := p
    by_cases hk : k' = k
    · subst hk
      simp [dict_insert, List.lookup, beq_eq_false_iff_ne.mpr (Ne.symm h)]
    · by_cases hb : k' = b
      · subst hb
        simp [dict_insert, hk, List.lookup]
      · simp [dict_insert, hk, List.lookup, beq_eq_false_iff_ne.mpr (Ne.symm hb), ih]

theorem getLast?_cons_orElse {α : Type} (a : α) (l : List α) :
    (a :: l).getLast? = (l.getLast? <|> some a) := by
  cases l with
  | nil => rfl
  | cons x xs =>
    rw [List.getLast?_cons_cons]
    obtain ⟨y, hy⟩ := Option.isSome_iff_exists.1
      (List.getLast?_isSome.2 (List.cons_ne_nil x xs))
    rw [hy]
    rfl

theorem read_foldl_lookup (fs : List (List Nat)) (acc : List (Nat × Nat × List (Nat × Nat)))
    (b : Nat) :
    List.lookup b (fs.foldl read_step acc) =
      ((fs.filter (fun d => decide (13 ≤ d.length ∧ (decode_response d).1 = b))).getLast?.map
        (fun d => (decode_response d).2) <|> List.lookup b acc) := by
  induction fs generalizing acc with
  | nil => simp
  | cons d fs ih =>
    rw [List.foldl_cons, ih (read_step acc d)]
    by_cases hp : 13 ≤ d.length ∧ (decode_response d).1 = b
    · obtain ⟨h13, hid⟩ := hp
      have hstep : List.lookup b (read_step acc d) = some (decode_response d).2 := by
        rw [read_step, if_neg (by omega : ¬ d.length < 13), ← hid]
        exact lookup_dict_insert_self acc (decode_response d).1 (decode_response d).2
      rw [List.filter_cons_of_pos (by simp [h13, hid]), getLast?_cons_orElse]
      cases hlast : (fs.filter
          (fun d => decide (13 ≤ d.length ∧ (decode_response d).1 = b))).getLast? with
      | none => simp [hstep, hlast]
      | some y => simp [hstep, hlast]
    · have hnp : (fun d => decide (13 ≤ d.length ∧ (decode_response d).1 = b)) d = false := by
        simpa using hp
      have hstep : List.lookup b (read_step acc d) = List.lookup b acc := by
        rw [read_step]
        by_cases h13 : d.length < 13
        · rw [if_pos h13]
        · rw [if_neg h13]
          refine lookup_dict_insert_ne acc _ b _ (fun hid => hp ⟨by omega, hid⟩)
      rw [List.filter_cons_of_neg (by simp [hnp]), hstep]

/-- C10: when several response frames in one read pass carry the same
buttonId, the decoded mapping holds exactly the entry of the last such
at-least-13-byte frame: lookup of a buttonId equals the decode of the
last matching frame among the (at most 24) frames read. -/
theorem c10_last_wins (frames : List (List Nat)) (b : Nat) :
    List.lookup b (read_all_buttons frames) =
      ((frames.take BUTTONS_PER_LAYER).filter
          (fun d => decide (13 ≤ d.length ∧ (decode_response d).1 = b))).getLast?.map
        (fun d => (decode_response d).2) := by
  rw [read_all_buttons, read_foldl_lookup]
  simp

-- --- Claim C5 ---

/-- A write frame: a button write (`03 FD ...` other than the commit
frame itself) or a layer-config write (`03 FE B0 ...`). -/
def is_write_frame (f : List Nat) : Bool :=
  (decide (f.take 2 = [0x03, 0xFD]) && !(decide (f = commit_report))) ||
    decide (f.take 3 = [0x03, 0xFE, 0xB0])

/-- Scan a trace: every write frame must be immediately followed by the
commit frame and then a settling sleep of at least 200 ms. -/
def commits_ok : List Event → Bool
  | [] => true
  | Event.sleep _ :: rest => commits_ok rest
  | Event.send f :: rest =>
    if is_write_frame f then
      match rest with
      | Event.send g :: Event.sleep ms :: rest' =>
        decide (g = commit_report) && decide (200 ≤ ms) && commits_ok rest'
      | _ => false
    else commits_ok rest

theorem is_write_frame_button (btn layer : Nat) (r : List (Nat × Nat)) :
    is_write_frame (pad_report (build_button_payload btn layer r)) = true := by
  have h2 : (pad_report (build_button_payload btn layer r)).take 2 = [0x03, 0xFD] := rfl
  have h4 : (pad_report (build_button_payload btn layer r)).getD 4 0 = 1 := rfl
  have hne : pad_report (build_button_payload btn layer r) ≠ commit_report := by
    intro h
    have h4' : (pad_report (build_button_payload btn layer r)).getD 4 0 =
        commit_report.getD 4 0 := by rw [h]
    rw [h4] at h4'
    exact absurd h4' (by decide)
  simp [is_write_frame, h2, hne]

theorem is_write_frame_layer_config (layer cb : Nat) (cd : List Nat) :
    is_write_frame (write_layer_config_frame layer cb cd) = true := by
  have h3 : (write_layer_config_frame layer cb cd).take 3 = [0x03, 0xFE, 0xB0] := rfl
  simp [is_write_frame, h3]

theorem commits_ok_write_block (f : List Nat) (hf : is_write_frame f = true)
    (rest : List Event) :
    commits_ok (.send f :: .send commit_report :: .sleep 200 :: rest) = commits_ok rest := by
  have h : commits_ok (Event.send f :: Event.send commit_report :: Event.sleep 200 :: rest) =
      if is_write_frame f then
        decide (commit_report = commit_report) && decide ((200 : Nat) ≤ 200) && commits_ok rest
      else commits_ok (Event.send commit_report :: Event.sleep 200 :: rest) := rfl
  rw [h, if_pos hf]
  simp

theorem commits_ok_button_events (btn layer : Nat) (keys : List (JVal × JVal))
    (e : List Event) (h : write_button_events btn layer keys = .ok e) (rest : List Event) :
    commits_ok (e ++ rest) = commits_ok rest := by
  cases hres : resolve_keys keys with
  | error err =>
    rw [write_button_events, write_button_frame, hres] at h
    exact absurd h (by simp [Except.bind, Bind.bind])
  | ok resolved =>
    have he : e = [.send (pad_report (build_button_payload btn layer
        (normalize_resolved resolved))), .send commit_report, .sleep 200] := by
      rw [write_button_events, write_button_frame, hres] at h
      simp only [Except.bind, Bind.bind, Except.ok.injEq] at h
      exact h.symm
    rw [he, List.cons_append, List.cons_append, List.cons_append, List.nil_append]
    exact commits_ok_write_block _ (is_write_frame_button btn layer _) rest

theorem commits_ok_layer_config_events (layer cb : Nat) (cd : List Nat) (rest : List Event) :
    commits_ok (write_layer_config_events layer cb cd ++ rest) = commits_ok rest := by
  rw [write_layer_config_events, List.cons_append, List.cons_append, List.cons_append,
      List.nil_append]
  exact commits_ok_write_block _ (is_write_frame_layer_config layer cb cd) rest

theorem commits_ok_layer_button_events (layer : Nat) (bs : List (Nat × List (JVal × JVal)))
    (e : List Event) (h : layer_button_events layer bs = .ok e) (rest : List Event) :
    commits_ok (e ++ rest) = commits_ok rest := by
  induction bs generalizing e with
  | nil =>
    rw [layer_button_events] at h
    obtain rfl : ([] : List Event) = e := by simpa using h
    rfl
  | cons p bs ih =>
    obtain ⟨btn, keys⟩ := p
    rw [layer_button_events] at h
    cases hu : is_unbound keys with
    | error err => rw [hu] at h; exact absurd h (by simp [Except.bind, Bind.bind])
    | ok u =>
      rw [hu] at h
      simp only [Except.bind, Bind.bind] at h
      cases u with
      | true => exact ih e h
      | false =>
        cases hev : write_button_events btn layer keys with
        | error err => rw [hev] at h; exact absurd h (by simp)
        | ok ev =>
          rw [hev] at h
          cases htail : layer_button_events layer bs with
          | error err => rw [htail] at h; exact absurd h (by simp)
          | ok tail =>
            rw [htail] at h
            obtain rfl : ev ++ tail = e := by simpa using h
            rw [List.append_assoc, commits_ok_button_events btn layer keys ev hev]
            exact ih tail htail

theorem commits_ok_all_button_events (config : Config) (ls : List Nat) (e : List Event)
    (h : all_button_events config ls = .ok e) (rest : List Event) :
    commits_ok (e ++ rest) = commits_ok rest := by
  induction ls generalizing e with
  | nil =>
    rw [all_button_events] at h
    obtain rfl : ([] : List Event) = e := by simpa using h
    rfl
  | cons l ls ih =>
    rw [all_button_events] at h
    cases hev : layer_button_events l ((List.lookup l config).getD []) with
    | error err => rw [hev] at h; exact absurd h (by simp [Except.bind, Bind.bind])
    | ok ev =>
      rw [hev] at h
      simp only [Except.bind, Bind.bind] at h
      cases htail : all_button_events config ls with
      | error err => rw [htail] at h; exact absurd h (by simp)
      | ok tail =>
        rw [htail] at h
        obtain rfl : ev ++ tail = e := by simpa using h
        rw [List.append_assoc, commits_ok_layer_button_events l _ ev hev]
        exact ih tail htail

theorem commits_ok_flat_configs (ls : List Nat) (leds : List (Nat × Nat × Nat))
    (led_only : Bool) (rest : List Event) :
    commits_ok (((ls.map (fun layer =>
        write_layer_config_events layer 0x08 (config_data_08 (List.lookup layer leds)) ++
          if led_only then [] else
            write_layer_config_events layer 0x05 config_data_05)).flatten) ++ rest) =
      commits_ok rest := by
  induction ls with
  | nil => rfl
  | cons l ls ih =>
    rw [List.map_cons, List.flatten_cons, List.append_assoc, List.append_assoc,
        commits_ok_layer_config_events]
    cases led_only with
    | true => rw [if_pos rfl, List.nil_append]; exact ih
    | false =>
      rw [if_neg (by simp), commits_ok_layer_config_events]
      exact ih

theorem commits_ok_configs (ls : List Nat) (leds : List (Nat × Nat × Nat)) (led_only : Bool)
    (rest : List Event) :
    commits_ok (write_all_layer_configs_events ls leds led_only ++ rest) = commits_ok rest := by
  rw [write_all_layer_configs_events]
  exact commits_ok_flat_configs _ leds led_only rest

/-- C5: in every emitted programming trace, each write frame (button
write or layer-config write) is immediately followed by the commit
frame `03 FD FE FF` and a settling sleep of at least 200 ms; no write
is left uncommitted. -/
theorem c5_commit_settle (config : Config) (leds : List (Nat × Nat × Nat)) (t : List Event)
    (h : run_events config leds = .ok t) : commits_ok t = true := by
  rw [run_events, program_from_config_events] at h
  cases hb : all_button_events config (sorted_layers config) with
  | error err => rw [hb] at h; exact absurd h (by simp [Except.bind, Bind.bind])
  | ok btns =>
    rw [hb] at h
    simp only [Except.bind, Bind.bind, Except.ok.injEq] at h
    rw [← h, List.append_assoc, commits_ok_all_button_events config _ btns hb,
        commits_ok_configs]
    decide

/-- Witness for C5 at a concrete two-layer configuration. -/
theorem c5_commit_settle_witness :
    commits_ok ((run_events [(1, [(1, [(JVal.str "a", JVal.num 0)])]),
        (2, [(2, [(JVal.str "b", JVal.num 1)])])] [(1, (1, 2))]).toOption.getD []) = true :=
  c5_commit_settle [(1, [(1, [(JVal.str "a", JVal.num 0)])]),
      (2, [(2, [(JVal.str "b", JVal.num 1)])])] [(1, (1, 2))] _ (by decide)

-- --- Claim C4 ---

/-- Modelled from the claim's words (refinement comparison only): the
trace shape C4 asserts — for each layer in turn, that layer's button
write+commit blocks immediately followed by that layer's two
layer-config+commit blocks (0x08 then 0x05), with one save block at the
very end. -/
def claimed_per_layer (config : Config) (leds : List (Nat × Nat × Nat)) :
    List Nat → Except String (List Event)
  | [] => .ok []
  | l :: rest => do
    let btns ← layer_button_events l ((List.lookup l config).getD [])
    let tail ← claimed_per_layer config leds rest
    .ok (btns ++ write_layer_config_events l 0x08 (config_data_08 (List.lookup l leds)) ++
      write_layer_config_events l 0x05 config_data_05 ++ tail)

/-- Modelled from the claim's words (refinement comparison only): the
whole claimed run trace. -/
def claimed_run_events (config : Config) (leds : List (Nat × Nat × Nat)) :
    Except String (List Event) := do
  let p ← claimed_per_layer config leds (sorted_layers config)
  .ok (p ++ save_to_board_events)

/-- A configuration touching layers 1 and 2, one bound button each. -/
def cfg_c4 : Config :=
  [(1, [(1, [(JVal.str "a", JVal.num 0)])]), (2, [(1, [(JVal.str "b", JVal.num 0)])])]

/-- C4 counterexample: for a configuration touching layers 1 and 2 the
emitted trace is not the claimed per-layer interleaving — the code
sends all layers' button writes first and only then all layer configs. -/
theorem c4_counterexample :
    (run_events cfg_c4 []).isOk = true ∧ (claimed_run_events cfg_c4 []).isOk = true ∧
    run_events cfg_c4 [] ≠ claimed_run_events cfg_c4 [] := by decide

/-- Count of save-to-flash frames in a trace. -/
def count_save (t : List Event) : Nat :=
  (t.filter (fun ev => decide (ev = Event.send save_report))).length

theorem count_save_append (a b : List Event) :
    count_save (a ++ b) = count_save a + count_save b := by
  simp [count_save, List.filter_append]

theorem ne_save_of_getD1 (f : List Nat) (h : f.getD 1 0 ≠ save_report.getD 1 0) :
    f ≠ save_report :=
  fun hh => h (by rw [hh])

theorem count_save_write_block (f : List Nat) (hf : f ≠ save_report) :
    count_save [.send f, .send commit_report, .sleep 200] = 0 := by
  simp [count_save, List.filter, hf, show commit_report ≠ save_report from by decide]

theorem count_save_button_events (btn layer : Nat) (keys : List (JVal × JVal)) (e : List Event)
    (h : write_button_events btn layer keys = .ok e) : count_save e = 0 := by
  cases hres : resolve_keys keys with
  | error err =>
    rw [write_button_events, write_button_frame, hres] at h
    exact absurd h (by simp [Except.bind, Bind.bind])
  | ok resolved =>
    have he : e = [.send (pad_report (build_button_payload btn layer
        (normalize_resolved resolved))), .send commit_report, .sleep 200] := by
      rw [write_button_events, write_button_frame, hres] at h
      simp only [Except.bind, Bind.bind, Except.ok.injEq] at h
      exact h.symm
    rw [he]
    refine count_save_write_block _ (ne_save_of_getD1 _ ?_)
    rw [show (pad_report (build_button_payload btn layer
        (normalize_resolved resolved))).getD 1 0 = 0xFD from rfl]
    decide

theorem count_save_layer_button_events (layer : Nat) (bs : List (Nat × List (JVal × JVal)))
    (e : List Event) (h : layer_button_events layer bs = .ok e) : count_save e = 0 := by
  induction bs generalizing e with
  | nil =>
    rw [layer_button_events] at h
    obtain rfl : ([] : List Event) = e := by simpa using h
    rfl
  | cons p bs ih =>
    obtain ⟨btn, keys⟩ := p
    rw [layer_button_events] at h
    cases hu : is_unbound keys with
    | error err => rw [hu] at h; exact absurd h (by simp [Except.bind, Bind.bind])
    | ok u =>
      rw [hu] at h
      simp only [Except.bind, Bind.bind] at h
      cases u with
      | true => exact ih e h
      | false =>
        cases hev : write_button_events btn layer keys with
        | error err => rw [hev] at h; exact absurd h (by simp)
        | ok ev =>
          rw [hev] at h
          cases htail : layer_button_events layer bs with
          | error err => rw [htail] at h; exact absurd h (by simp)
          | ok tail =>
            rw [htail] at h
            obtain rfl : ev ++ tail = e := by simpa using h
            rw [count_save_append, count_save_button_events btn layer keys ev hev, ih tail htail]

theorem count_save_layer_config_events (layer cb : Nat) (cd : List Nat) :
    count_save (write_layer_config_events layer cb cd) = 0 := by
  rw [write_layer_config_events]
  refine count_save_write_block _ (ne_save_of_getD1 _ ?_)
  rw [show (write_layer_config_frame layer cb cd).getD 1 0 = 0xFE from rfl]
  decide

theorem count_save_all_configs (ls : List Nat) (leds : List (Nat × Nat × Nat))
    (led_only : Bool) : count_save (write_all_layer_configs_events ls leds led_only) = 0 := by
  rw [write_all_layer_configs_events]
  induction List.insertionSort (· ≤ ·) ls with
  | nil => rfl
  | cons l L ih =>
    rw [List.map_cons, List.flatten_cons, count_save_append, count_save_append,
        count_save_layer_config_events, ih]
    cases led_only with
    | true => rfl
    | false => rw [if_neg (by simp), count_save_layer_config_events]

/-- C4 amended: when programming a configuration touching layers 1 and
2, the emitted sequence is all button-write+commit blocks of layer 1,
then all of layer 2, then the layer-config blocks of both layers in
order (0x08 then 0x05 for each layer), then exactly one save-to-flash
frame at the end of the whole run. -/
theorem c4_order (b1 b2 : List (Nat × List (JVal × JVal))) (leds : List (Nat × Nat × Nat))
    (e1 e2 : List Event)
    (h1 : layer_button_events 1 b1 = .ok e1) (h2 : layer_button_events 2 b2 = .ok e2) :
    (run_events [(1, b1), (2, b2)] leds =
      .ok (((e1 ++ e2) ++ write_all_layer_configs_events [1, 2] leds false) ++
        save_to_board_events)) ∧
    (write_all_layer_configs_events [1, 2] leds false =
      write_layer_config_events 1 0x08 (config_data_08 (List.lookup 1 leds)) ++
        (write_layer_config_events 1 0x05 config_data_05 ++
          (write_layer_config_events 2 0x08 (config_data_08 (List.lookup 2 leds)) ++
            write_layer_config_events 2 0x05 config_data_05))) ∧
    (∀ t, run_events [(1, b1), (2, b2)] leds = .ok t → count_save t = 1) := by
  have hsl : sorted_layers [(1, b1), (2, b2)] = [1, 2] := rfl
  have hall : all_button_events [(1, b1), (2, b2)] [1, 2] = .ok (e1 ++ (e2 ++ [])) := by
    have hl1 : (List.lookup 1 [(1, b1), (2, b2)]).getD [] = b1 := rfl
    have hl2 : (List.lookup 2 [(1, b1), (2, b2)]).getD [] = b2 := rfl
    simp only [all_button_events, hl1, hl2, h1, h2, Except.bind, Bind.bind]
  have hrun : run_events [(1, b1), (2, b2)] leds =
      .ok (((e1 ++ e2) ++ write_all_layer_configs_events [1, 2] leds false) ++
        save_to_board_events) := by
    rw [run_events, program_from_config_events, hsl, hall]
    simp only [Except.bind, Bind.bind, Except.ok.injEq]
    simp [List.append_assoc]
  refine ⟨hrun, ?_, ?_⟩
  · have hs : List.insertionSort (· ≤ ·) [1, 2] = [1, 2] := rfl
    rw [write_all_layer_configs_events, hs]
    simp [List.append_assoc]
  · intro t ht
    rw [hrun] at ht
    obtain rfl : ((e1 ++ e2) ++ write_all_layer_configs_events [1, 2] leds false) ++
        save_to_board_events = t := by simpa using ht
    rw [count_save_append, count_save_append, count_save_append,
        count_save_layer_button_events 1 b1 e1 h1, count_save_layer_button_events 2 b2 e2 h2,
        count_save_all_configs]
    decide

/-- Witness for C4's amended statement at a concrete configuration. -/
theorem c4_order_witness :
    (run_events cfg_c4 [] =
      .ok ((((layer_button_events 1 [(1, [(JVal.str "a", JVal.num 0)])]).toOption.getD [] ++
          (layer_button_events 2 [(1, [(JVal.str "b", JVal.num 0)])]).toOption.getD []) ++
          write_all_layer_configs_events [1, 2] [] false) ++ save_to_board_events)) ∧
    (∀ t, run_events cfg_c4 [] = .ok t → count_save t = 1) := by
  have h := c4_order [(1, [(JVal.str "a", JVal.num 0)])] [(1, [(JVal.str "b", JVal.num 0)])]
    [] ((layer_button_events 1 [(1, [(JVal.str "a", JVal.num 0)])]).toOption.getD [])
    ((layer_button_events 2 [(1, [(JVal.str "b", JVal.num 0)])]).toOption.getD [])
    (by decide) (by decide)
  exact ⟨h.1, h.2.2⟩

-- --- Claim C9 ---

/-- C9: verification reads back layer 1 only (the phase depends only on
the device's layer-1 response frames), and its warnings are exactly the
intended single-keystroke layer-1 bindings whose buttonId is present in
the readback with a nonempty keystroke list whose first (modifier, key)
pair differs from the intended one — so a missing readback entry is
silently skipped, macro bindings are never compared, and a mismatch
yields a non-fatal warning (the phase returns the warning list). -/
theorem c9_verification :
    (∀ (config : Config) (d d' : Nat → List (List Nat)), d 1 = d' 1 →
      verify_phase config d = verify_phase config d') ∧
    (∀ (readback : List (Nat × Nat × List (Nat × Nat)))
       (cfg1 : List (Nat × List (JVal × JVal))) (ws : List Nat),
      verify_loop readback cfg1 = .ok ws →
      ∀ b : Nat, b ∈ ws ↔ ∃ k m kc mv t a tl,
        (b, [(k, m)]) ∈ cfg1 ∧ _keycode k = .ok kc ∧ _modifier m = .ok mv ∧
        List.lookup b readback = some (t, a :: tl) ∧ a ≠ (mv, kc)) := by
  constructor
  · intro config d d' h
    rw [verify_phase, verify_phase, h]
  · intro readback cfg1
    induction cfg1 with
    | nil =>
      intro ws h b
      simp only [verify_loop] at h
      obtain rfl : ([] : List Nat) = ws := by simpa using h
      simp
    | cons p rest ih =>
      obtain ⟨btn, expected⟩ := p
      intro ws h b
      simp only [verify_loop] at h
      cases hlk : List.lookup btn readback with
      | none =>
        rw [hlk] at h
        rw [ih ws h b]
        constructor
        · rintro ⟨k, m, kc, mv, t, a, tl, hmem, hkc, hmv, hl, hne⟩
          exact ⟨k, m, kc, mv, t, a, tl, List.mem_cons_of_mem _ hmem, hkc, hmv, hl, hne⟩
        · rintro ⟨k, m, kc, mv, t, a, tl, hmem, hkc, hmv, hl, hne⟩
          rcases List.mem_cons.1 hmem with heq | hmem'
          · have hb : b = btn := congrArg Prod.fst heq
            rw [hb, hlk] at hl
            exact absurd hl (by simp)
          · exact ⟨k, m, kc, mv, t, a, tl, hmem', hkc, hmv, hl, hne⟩
      | some v =>
        obtain ⟨bt, actual⟩ := v
        rw [hlk] at h
        cases expected with
        | nil =>
          rw [ih ws h b]
          constructor
          · rintro ⟨k, m, kc, mv, t, a, tl, hmem, hkc, hmv, hl, hne⟩
            exact ⟨k, m, kc, mv, t, a, tl, List.mem_cons_of_mem _ hmem, hkc, hmv, hl, hne⟩
          · rintro ⟨k, m, kc, mv, t, a, tl, hmem, hkc, hmv, hl, hne⟩
            rcases List.mem_cons.1 hmem with heq | hmem'
            · simp only [Prod.mk.injEq] at heq
              exact absurd heq.2 (List.cons_ne_nil _ _)
            · exact ⟨k, m, kc, mv, t, a, tl, hmem', hkc, hmv, hl, hne⟩
        | cons e0 etail =>
          obtain ⟨k0, m0⟩ := e0
          cases etail with
          | cons e1 etail2 =>
            rw [ih ws h b]
            constructor
            · rintro ⟨k, m, kc, mv, t, a, tl, hmem, hkc, hmv, hl, hne⟩
              exact ⟨k, m, kc, mv, t, a, tl, List.mem_cons_of_mem _ hmem, hkc, hmv, hl, hne⟩
            · rintro ⟨k, m, kc, mv, t, a, tl, hmem, hkc, hmv, hl, hne⟩
              rcases List.mem_cons.1 hmem with heq | hmem'
              · simp only [Prod.mk.injEq, List.cons.injEq] at heq
                exact absurd heq.2.2 (by simp)
              · exact ⟨k, m, kc, mv, t, a, tl, hmem', hkc, hmv, hl, hne⟩
          | nil =>
            simp only [] at h
            cases hkc0 : _keycode k0 with
            | error err =>
              rw [hkc0] at h
              exact absurd h (by simp [Except.bind, Bind.bind])
            | ok kc0 =>
              rw [hkc0] at h
              cases hmv0 : _modifier m0 with
              | error err =>
                rw [hmv0] at h
                exact absurd h (by simp [Except.bind, Bind.bind])
              | ok mv0 =>
                rw [hmv0] at h
                cases htail : verify_loop readback rest with
                | error err =>
                  rw [htail] at h
                  exact absurd h (by simp [Except.bind, Bind.bind])
                | ok tail =>
                  rw [htail] at h
                  simp only [Except.bind, Bind.bind] at h
                  cases actual with
                  | nil =>
                    simp only [] at h
                    obtain rfl : tail = ws := by simpa using h
                    rw [ih tail htail b]
                    constructor
                    · rintro ⟨k, m, kc, mv, t, a, tl, hmem, hkc, hmv, hl, hne⟩
                      exact ⟨k, m, kc, mv, t, a, tl, List.mem_cons_of_mem _ hmem,
                        hkc, hmv, hl, hne⟩
                    · rintro ⟨k, m, kc, mv, t, a, tl, hmem, hkc, hmv, hl, hne⟩
                      rcases List.mem_cons.1 hmem with heq | hmem'
                      · simp only [Prod.mk.injEq, List.cons.injEq] at heq
                        obtain ⟨hb, ⟨hk, hm⟩, -⟩ := heq
                        rw [hb, hlk] at hl
                        simp only [Option.some.injEq, Prod.mk.injEq] at hl
                        exact absurd hl.2.symm (List.cons_ne_nil _ _)
                      · exact ⟨k, m, kc, mv, t, a, tl, hmem', hkc, hmv, hl, hne⟩
                  | cons a0 atl =>
                    simp only [] at h
                    by_cases ha : a0 = (mv0, kc0)
                    · rw [if_pos ha] at h
                      obtain rfl : tail = ws := by simpa using h
                      rw [ih tail htail b]
                      constructor
                      · rintro ⟨k, m, kc, mv, t, a, tl, hmem, hkc, hmv, hl, hne⟩
                        exact ⟨k, m, kc, mv, t, a, tl, List.mem_cons_of_mem _ hmem,
                          hkc, hmv, hl, hne⟩
                      · rintro ⟨k, m, kc, mv, t, a, tl, hmem, hkc, hmv, hl, hne⟩
                        rcases List.mem_cons.1 hmem with heq | hmem'
                        · simp only [Prod.mk.injEq, List.cons.injEq] at heq
                          obtain ⟨hb, ⟨hk, hm⟩, -⟩ := heq
                          rw [hb, hlk] at hl
                          simp only [Option.some.injEq, Prod.mk.injEq,
                            List.cons.injEq] at hl
                          obtain ⟨-, ha0, -⟩ := hl
                          rw [hk] at hkc
                          rw [hm] at hmv
                          rw [hkc0] at hkc
                          rw [hmv0] at hmv
                          simp only [Except.ok.injEq] at hkc hmv
                          rw [← ha0, ← hkc, ← hmv] at hne
                          exact absurd ha hne
                        · exact ⟨k, m, kc, mv, t, a, tl, hmem', hkc, hmv, hl, hne⟩
                    · rw [if_neg ha] at h
                      obtain rfl : btn :: tail = ws := by simpa using h
                      rw [List.mem_cons, ih tail htail b]
                      constructor
                      · rintro (rfl | ⟨k, m, kc, mv, t, a, tl, hmem, hkc, hmv, hl, hne⟩)
                        · exact ⟨k0, m0, kc0, mv0, bt, a0, atl,
                            List.mem_cons_self _ _, hkc0, hmv0, hlk, ha⟩
                        · exact ⟨k, m, kc, mv, t, a, tl, List.mem_cons_of_mem _ hmem,
                            hkc, hmv, hl, hne⟩
                      · rintro ⟨k, m, kc, mv, t, a, tl, hmem, hkc, hmv, hl, hne⟩
                        rcases List.mem_cons.1 hmem with heq | hmem'
                        · exact Or.inl (congrArg Prod.fst heq)
                        · exact Or.inr ⟨k, m, kc, mv, t, a, tl, hmem', hkc, hmv, hl, hne⟩

/-- A layer-1 readback frame reporting button 1 bound to (0, 5). -/
def frame_mismatch : List Nat :=
  [0x03, 0xFA, 1, 1, 1, 0, 0, 0, 0, 0, 1, 0, 5] ++ List.replicate 52 0

/-- Witness for C9 at a concrete mismatching readback. -/
theorem c9_verification_witness :
    (verify_phase [(1, [(1, [(JVal.str "a", JVal.num 0)])])]
        (fun l => if l = 1 then [frame_mismatch] else []) =
      verify_phase [(1, [(1, [(JVal.str "a", JVal.num 0)])])]
        (fun _ => [frame_mismatch])) ∧
    (1 ∈ ([1] : List Nat) ↔ ∃ k m kc mv t a tl,
      ((1 : Nat), [(k, m)]) ∈ [((1 : Nat), [(JVal.str "a", JVal.num 0)])] ∧
      _keycode k = .ok kc ∧ _modifier m = .ok mv ∧
      List.lookup 1 (read_all_buttons [frame_mismatch]) = some (t, a :: tl) ∧
      a ≠ (mv, kc)) :=
  ⟨c9_verification.1 [(1, [(1, [(JVal.str "a", JVal.num 0)])])]
      (fun l => if l = 1 then [frame_mismatch] else []) (fun _ => [frame_mismatch]) (by decide),
   c9_verification.2 (read_all_buttons [frame_mismatch]) [(1, [(JVal.str "a", JVal.num 0)])]
      [1] (by decide) 1⟩

end Macropad
